import Mathlib

/-!
Shallow embedding of the window lifecycle registry, the delayed-close
scheduling, the config loading path and the remote execution bridge of
src/src/app.ts (class App).

Modelling conventions:

* The JS Map from window name to Gtk.Window is an association list from
  String to the only widget attribute the claims touch, the visibility
  flag.  Map.get is alookup, Map.set on a present key is aset.
* GTK widget semantics as used by the source: show sets the visible flag
  true, hide sets it false, and the notify signal for visible fires only
  when the flag actually changes.  addWindow connects that notify signal
  to re-emit a window-toggled event, so showWidget and hideWidget append
  that event exactly when the flag changes.
* timeout(delay, cb) from utils.js registers a one-shot timer; a Timer
  record holds the absolute fire time (state clock now plus delay) and
  the window the captured closure hides.  elapse advances the clock and
  runs every due timer in registration order, which is the GLib main
  loop behaviour for one-shot sources.  The source never stores or
  cancels a timer handle, and neither does the model.
* console.error, console.warn, logError and print diagnostics are kept
  in a log trace where a claim depends on them (addWindow, load,
  deprecated); getWindow logging for unknown names is not traced since
  no claim reads it.
* Dynamic import, CSS application and the icon theme are backend
  effects outside the registry; load is therefore a function of
  the imported result (LoadOutcome), and style/icons have no registry
  effect.
* The script engine execution inside RunJs is external; RunJs is a
  function of the engine outcome, and the deliveries it produces (DBus
  calls, local error logs) are returned as a list.
-/

namespace Ags

/-- Association-list lookup, modelling JS Map.get and object indexing. -/
def alookup {α : Type} : List (String × α) → String → Option α
  | [], _ => none
  | (k, v) :: rest, n => if k = n then some v else alookup rest n

/-- Association-list update of a present key, modelling assignment to a
widget property of a registered window.  Absent keys stay absent. -/
def aset {α : Type} : List (String × α) → String → α → List (String × α)
  | [], _, _ => []
  | (k, v) :: rest, n, x => if k = n then (k, x) :: rest else (k, v) :: aset rest n x

/-- A one-shot timer registered by the timeout(delay, () => w.hide())
call in closeWindow: absolute fire time and the window the captured
closure hides. -/
structure Timer where
  fireAt : Nat
  target : String
  deriving DecidableEq

/-- The two signal kinds the App class registers: window-toggled with
the window name and its visibility, and config-parsed. -/
inductive Event where
  | windowToggled : String → Bool → Event
  | configParsed : Event
  deriving DecidableEq

/-- The mutable state of the App instance that the claims touch: the
window registry (name to visible flag), the close delay table from the
config, the registered one-shot timers, the emitted events, the logged
diagnostics, whether quit was called, and the main loop clock. -/
structure AppState where
  windows : List (String × Bool)
  closeDelay : List (String × Nat)
  pending : List Timer
  events : List Event
  log : List String
  quitCalled : Bool
  now : Nat
  deriving DecidableEq

/-- An App state before any window or config is registered. -/
def emptyState : AppState :=
  { windows := [], closeDelay := [], pending := [], events := [],
    log := [], quitCalled := false, now := 0 }

/-- w.hide(): set the visible flag false; the notify signal connected in
addWindow re-emits window-toggled exactly when the flag changes. -/
def hideWidget (s : AppState) (name : String) : AppState :=
  if alookup s.windows name = some true then
    { s with windows := aset s.windows name false,
             events := s.events ++ [Event.windowToggled name false] }
  else s

/-- w.show(): set the visible flag true; the notify signal connected in
addWindow re-emits window-toggled exactly when the flag changes. -/
def showWidget (s : AppState) (name : String) : AppState :=
  if alookup s.windows name = some false then
    { s with windows := aset s.windows name true,
             events := s.events ++ [Event.windowToggled name true] }
  else s

/-- App.openWindow: this.getWindow(name)?.show() — a no-op for an
unknown name. -/
def openWindow (s : AppState) (name : String) : AppState :=
  showWidget s name

/-- JS truthiness of the delay read from the table: undefined and 0 are
falsy, any other number is truthy. -/
def delayTruthy : Option Nat → Bool
  | none => false
  | some d => decide (d ≠ 0)

/-- App.closeWindow: return if the window is unknown or not visible;
with a truthy configured delay register timeout(delay, () => w.hide())
and emit window-toggled(name, false) immediately; otherwise hide at
once.  No previous timer is looked up or cancelled. -/
def closeWindow (s : AppState) (name : String) : AppState :=
  match alookup s.windows name with
  | none => s
  | some v =>
      if v = false then s
      else
        let d := alookup s.closeDelay name
        if delayTruthy d && v then
          { s with
              pending := s.pending ++ [{ fireAt := s.now + d.getD 0, target := name }],
              events := s.events ++ [Event.windowToggled name false] }
        else
          hideWidget s name

/-- App.toggleWindow: close a visible window, open a hidden one, and
return a diagnostic string for an unknown name. -/
def toggleWindow (s : AppState) (name : String) : AppState × Option String :=
  match alookup s.windows name with
  | some v => (if v then closeWindow s name else openWindow s name, none)
  | none => (s, some ("There is no window named " ++ name))

/-- JS template rendering of this.getWindow(name)?.visible. -/
def renderVisible : Option Bool → String
  | none => "undefined"
  | some true => "true"
  | some false => "false"

/-- App.ToggleWindow RPC method: invoke toggleWindow, then return the
template rendering of the visible flag looked up afterwards. -/
def ToggleWindow (s : AppState) (name : String) : AppState × String :=
  let s1 := (toggleWindow s name).1
  (s1, renderVisible (alookup s1.windows name))

/-- A Gtk.Window as far as addWindow reads it: its name property and
its visible flag.  The instanceof Gtk.Window guard of the source cannot
fail here since every value of this type is a window. -/
structure GWindow where
  name : String
  visible : Bool
  deriving DecidableEq

/-- App.addWindow: reject a window whose name is empty (JS falsy); on a
duplicate name log the diagnostic and call this.quit(); otherwise enter
the window into the registry.  The notify::visible connection made
before the duplicate check is modelled by showWidget and hideWidget for
registered windows. -/
def addWindow (s : AppState) (w : GWindow) : AppState :=
  if w.name = "" then
    { s with log := s.log ++ ["window has no name"] }
  else if (alookup s.windows w.name).isSome then
    { s with log := s.log ++ ["There is already a window named" ++ w.name],
             quitCalled := true }
  else
    { s with windows := s.windows ++ [(w.name, w.visible)] }

/-- Run one due timer: the registered closure calls w.hide() on its
captured window. -/
def fire (s : AppState) (tm : Timer) : AppState :=
  hideWidget s tm.target

/-- Advance the main loop clock by dur milliseconds: every one-shot
timer whose fire time has arrived runs in registration order and is
removed; the rest stay pending. -/
def elapse (s : AppState) (dur : Nat) : AppState :=
  (s.pending.filter fun tm => decide (tm.fireAt ≤ s.now + dur)).foldl fire
    { s with
        pending := s.pending.filter fun tm => decide (¬ tm.fireAt ≤ s.now + dur),
        now := s.now + dur }

/-- The config descriptor as far as app.ts reads it.  The callback
fields onWindowToggled and onConfigParsed only re-subscribe to events
already in the trace and are not modelled; style and icons only touch
the CSS and icon backends. -/
structure Config where
  windows : List GWindow
  style : Option String
  icons : Option String
  closeWindowDelay : Option (List (String × Nat))
  notificationPopupTimeout : Option Nat
  notificationForceTimeout : Option Bool
  cacheNotificationActions : Option Bool
  cacheCoverArt : Option Bool
  maxStreamVolume : Option Nat
  deriving DecidableEq

/-- The console.warn message of the local warning helper inside
deprecated(config). -/
def warningMsg (f t : String) : String :=
  f ++ " config option has been removed: use " ++ t ++ " instead"

/-- deprecated(config): one warning per legacy field that is not
undefined, in source order, with exactly the arguments the source
passes to the warning helper. -/
def deprecatedWarnings (c : Config) : List String :=
  (if c.notificationPopupTimeout.isSome then
    [warningMsg "notificationPopupTimeout" "Notifications.popupTimeout"] else []) ++
  (if c.notificationForceTimeout.isSome then
    [warningMsg "notificationForceTimeout" "Notifications.forceTimeout"] else []) ++
  (if c.cacheNotificationActions.isSome then
    [warningMsg "cacheNotificationActions" "Notifications.cacheActions"] else []) ++
  (if c.cacheCoverArt.isSome then
    [warningMsg "cacheCoverArt" "Mpris.cacheCoverArt"] else []) ++
  (if c.maxStreamVolume.isSome then
    [warningMsg "cacheCoverArt" "Audio.maxStreamVolume"] else [])

/-- The result of the dynamic import at the top of App._load: the
module has no default export, or it yields a config, or the import (or
the code consuming it) throws — with the flag telling whether the
thrown error is the ImportError whose message names the entry file, the
only case the catch block treats as fatal. -/
inductive LoadOutcome where
  | noDefault
  | ok : Config → LoadOutcome
  | threw : Bool → LoadOutcome
  deriving DecidableEq

/-- The try-block body of App._load after a config was obtained: warn
about legacy fields, install the close delay table (or an empty one),
register the declared windows, then emit config-parsed. -/
def applyConfig (s : AppState) (c : Config) : AppState :=
  let s1 := { s with log := s.log ++ deprecatedWarnings c }
  let s2 := { s1 with closeDelay := c.closeWindowDelay.getD [] }
  let s3 := c.windows.foldl addWindow s2
  { s3 with events := s3.events ++ [Event.configParsed] }

/-- App._load as a function of the import result: a missing default
export logs and still emits config-parsed; a config is applied; a
thrown error is logged, and only the entry-file-not-found ImportError
prints the diagnostic and calls this.quit(). -/
def load (s : AppState) (r : LoadOutcome) : AppState :=
  match r with
  | LoadOutcome.noDefault =>
      { s with log := s.log ++ ["Missing default export"],
               events := s.events ++ [Event.configParsed] }
  | LoadOutcome.ok c => applyConfig s c
  | LoadOutcome.threw entryNotFound =>
      let s1 := { s with log := s.log ++ ["logError"] }
      if entryNotFound then
        { s1 with log := s1.log ++ ["config file not found"], quitCalled := true }
      else s1

/-- A visible window bar whose close delay is configured as 100. -/
def demoDelayedState : AppState :=
  { windows := [("bar", true)], closeDelay := [("bar", 100)],
    pending := [], events := [], log := [], quitCalled := false, now := 0 }

/-- One delivery the remote execution bridge produces: a
Gio.DBus.session.call with destination, object path, interface name,
method and the stringified payload — or a local logError diagnostic. -/
inductive Delivery where
  | dbusCall : Option String → Option String → Option String → String → String → Delivery
  | logError : String → Delivery
  deriving DecidableEq

/-- The outcome the script engine hands back for one RunJs call: the
Function constructor threw (compile error), the async function resolved
with a value whose template stringification is given, or it rejected
with an error whose stringification is given. -/
inductive Outcome where
  | compileError : String → Outcome
  | resolved : String → Outcome
  | rejected : String → Outcome
  deriving DecidableEq

/-- JS truthiness of an optional string argument: undefined and the
empty string are falsy. -/
def strTruthy : Option String → Bool
  | none => false
  | some s => decide (s ≠ "")

/-- js.includes with a one-character needle, over the decoded
characters. -/
def hasSemicolon (js : String) : Bool :=
  js.data.any fun c => c = ';'

/-- The async function body RunJs compiles: script text with a
statement separator is taken verbatim, otherwise it is wrapped as a
single returned expression. -/
def runJsBody (js : String) : String :=
  if hasSemicolon js then js else "return " ++ js

/-- The dbus helper inside RunJs: a session bus call addressed by the
caller bus name and object path, with the caller bus name doubling as
the interface name, carrying one stringified argument. -/
def dbusSend (bus path : Option String) (method out : String) : Delivery :=
  Delivery.dbusCall bus path bus method out

/-- App.RunJs as a function of the engine outcome for the compiled
body: the result is the body text handed to the Function constructor
paired with the deliveries.  The reply helpers response and the local
constant shadowing the global print are both dbus calls built from the
caller identity; client is truthy only when both identity parts are
truthy.  A compile error is replied over dbus or logged; a resolution
is replied over dbus or passed to the shadowing print constant; a
rejection is replied over dbus or logged. -/
def RunJs (js : String) (clientBusName clientObjPath : Option String)
    (outcome : Outcome) : String × List Delivery :=
  let body := runJsBody js
  let response := dbusSend clientBusName clientObjPath "Return"
  let printVar := dbusSend clientBusName clientObjPath "Print"
  let client := strTruthy clientBusName && strTruthy clientObjPath
  match outcome with
  | Outcome.compileError e => (body, [if client then response e else Delivery.logError e])
  | Outcome.resolved out => (body, [if client then response out else printVar out])
  | Outcome.rejected e => (body, [if client then response e else Delivery.logError e])

/-- Split a character list at every plus sign. -/
def splitPlus : List Char → List (List Char)
  | [] => [[]]
  | c :: rest =>
      let r := splitPlus rest
      if c = '+' then [] :: r
      else
        match r with
        | [] => [[c]]
        | g :: gs => (c :: g) :: gs

/-- Parse a nonempty digit string. -/
def parseDigits (cs : List Char) : Option Nat :=
  if cs = [] then none
  else
    cs.foldl
      (fun acc c =>
        match acc with
        | none => none
        | some n => if c.isDigit then some (n * 10 + (c.toNat - 48)) else none)
      (some 0)

/-- Render a natural number in decimal, fuel-structured. -/
def natChars : Nat → Nat → List Char → List Char
  | 0, _, acc => acc
  | fuel + 1, n, acc =>
      let d := Char.ofNat (48 + n % 10)
      if n < 10 then d :: acc else natChars fuel (n / 10) (d :: acc)

/-- Template stringification of a JS number as RunJs delivers it. -/
def natToStr (n : Nat) : String :=
  String.mk (natChars (n + 1) n [])

/-- Evaluate a plain addition of decimal literals. -/
def evalAddExpr (e : String) : Option Nat :=
  ((splitPlus e.data).mapM parseDigits).map fun parts => parts.foldl (· + ·) 0

/-- Modelled from the spec: the external script engine executing the
compiled RunJs body.  The spec fixes that text with no statement
separator is a single returned expression and that the reply for the
script 1+1 carries the string 2; so for a separator-free plain addition
the engine resolves with the stringified sum. -/
def engineOutcome (js : String) : Option Outcome :=
  if hasSemicolon js then none
  else (evalAddExpr js).map fun n => Outcome.resolved (natToStr n)

/-! Helper lemmas about the association list and the scheduler. -/

theorem alookup_aset_self {α : Type} (l : List (String × α)) (n : String) (x : α)
    (h : (alookup l n).isSome) : alookup (aset l n x) n = some x := by
  induction l with
  | nil => simp [alookup] at h
  | cons p rest ih =>
      obtain ⟨k, v⟩ := p
      by_cases hk : k = n
      · simp [aset, alookup, hk]
      · simp only [aset, alookup, if_neg hk] at h ⊢
        exact ih h

theorem alookup_aset_ne {α : Type} (l : List (String × α)) (n m : String) (x : α)
    (h : m ≠ n) : alookup (aset l n x) m = alookup l m := by
  induction l with
  | nil => simp [aset]
  | cons p rest ih =>
      obtain ⟨k, v⟩ := p
      by_cases hk : k = n
      · subst hk
        have hnm : ¬ k = m := fun hx => h hx.symm
        simp [aset, alookup, hnm]
      · simp only [aset, if_neg hk, alookup]
        rw [ih]

theorem alookup_append_self {α : Type} (l : List (String × α)) (n : String) (x : α)
    (h : alookup l n = none) : alookup (l ++ [(n, x)]) n = some x := by
  induction l with
  | nil => simp [alookup]
  | cons p rest ih =>
      obtain ⟨k, v⟩ := p
      by_cases hk : k = n
      · simp [alookup, hk] at h
      · simp only [alookup, if_neg hk, List.cons_append] at h ⊢
        exact ih h

theorem hideWidget_pending (s : AppState) (n : String) :
    (hideWidget s n).pending = s.pending := by
  unfold hideWidget
  split <;> rfl

theorem hideWidget_now (s : AppState) (n : String) :
    (hideWidget s n).now = s.now := by
  unfold hideWidget
  split <;> rfl

theorem hideWidget_lookup_ne (s : AppState) (n m : String) (h : m ≠ n) :
    alookup (hideWidget s n).windows m = alookup s.windows m := by
  unfold hideWidget
  split
  · exact alookup_aset_ne s.windows n m false h
  · rfl

theorem hideWidget_lookup_self (s : AppState) (n : String)
    (h : alookup s.windows n = some true) :
    alookup (hideWidget s n).windows n = some false := by
  unfold hideWidget
  rw [if_pos h]
  exact alookup_aset_self s.windows n false (by simp [h])

theorem showWidget_lookup_self (s : AppState) (n : String)
    (h : alookup s.windows n = some false) :
    alookup (showWidget s n).windows n = some true := by
  unfold showWidget
  rw [if_pos h]
  exact alookup_aset_self s.windows n true (by simp [h])

theorem foldl_fire_lookup (tms : List Timer) (s : AppState) (name : String)
    (h : ∀ tm ∈ tms, tm.target ≠ name) :
    alookup ((tms.foldl fire s).windows) name = alookup s.windows name := by
  induction tms generalizing s with
  | nil => rfl
  | cons tm rest ih =>
      have h1 : tm.target ≠ name := h tm (List.mem_cons_self tm rest)
      have h2 : ∀ x ∈ rest, x.target ≠ name :=
        fun x hx => h x (List.mem_cons_of_mem tm hx)
      rw [List.foldl_cons, ih (fire s tm) h2]
      exact hideWidget_lookup_ne s tm.target name (Ne.symm h1)

theorem elapse_lookup_of_no_due (s : AppState) (dur : Nat) (name : String)
    (h : ∀ tm ∈ s.pending, tm.fireAt ≤ s.now + dur → tm.target ≠ name) :
    alookup (elapse s dur).windows name = alookup s.windows name := by
  have hh : ∀ tm ∈ s.pending.filter (fun tm => decide (tm.fireAt ≤ s.now + dur)),
      tm.target ≠ name := by
    intro tm hm
    rw [List.mem_filter] at hm
    exact h tm hm.1 (by simpa using hm.2)
  unfold elapse
  exact foldl_fire_lookup _ _ name hh

theorem elapse_due_tail_hides (s : AppState) (q : List Timer) (name : String)
    (f dur : Nat)
    (hpend : s.pending = q ++ [{ fireAt := f, target := name }])
    (hq : ∀ tm ∈ q, tm.target ≠ name)
    (hv : alookup s.windows name = some true)
    (hdue : f ≤ s.now + dur) :
    alookup (elapse s dur).windows name = some false := by
  unfold elapse
  rw [hpend]
  simp only [List.filter_append]
  rw [List.foldl_append]
  have hsingle :
      List.filter (fun tm => decide (tm.fireAt ≤ s.now + dur))
        [({ fireAt := f, target := name } : Timer)] =
        [{ fireAt := f, target := name }] := by
    simp [hdue]
  rw [hsingle, List.foldl_cons, List.foldl_nil]
  have hfilter : ∀ tm ∈ q.filter (fun tm => decide (tm.fireAt ≤ s.now + dur)),
      tm.target ≠ name := fun tm hm => hq tm (List.mem_filter.mp hm).1
  apply hideWidget_lookup_self
  rw [foldl_fire_lookup _ _ name hfilter]
  exact hv

theorem closeWindow_falsy_delay (s : AppState) (name : String)
    (hv : alookup s.windows name = some true)
    (hd : delayTruthy (alookup s.closeDelay name) = false) :
    closeWindow s name = hideWidget s name := by
  unfold closeWindow
  rw [hv]
  simp [hd]

/-! Claim theorems. -/

/-- C1 (code divergence): with a close delay of 100 configured for the
visible window bar, a second close request while the first delayed
close is still pending registers a second timer instead of cancelling
and replacing the first, and emits a second window-toggled(bar, false)
event; once the delay elapses both timers run their hide action. -/
theorem closeWindow_second_request_stacks :
    (closeWindow (closeWindow demoDelayedState "bar") "bar").pending =
      [{ fireAt := 100, target := "bar" }, { fireAt := 100, target := "bar" }] ∧
    (closeWindow (closeWindow demoDelayedState "bar") "bar").events =
      [Event.windowToggled "bar" false, Event.windowToggled "bar" false] ∧
    (elapse (closeWindow (closeWindow demoDelayedState "bar") "bar") 100).pending = [] := by
  decide

/-- C6 (code divergence): openWindow never cancels the timer registered
by a delayed close: after closing and then reopening the visible window
bar, the timer is still pending and its hide action still runs once the
delay elapses, hiding the window instead of leaving it visible. -/
theorem openWindow_does_not_cancel_timer :
    (openWindow (closeWindow demoDelayedState "bar") "bar").pending =
      [{ fireAt := 100, target := "bar" }] ∧
    alookup (elapse (openWindow (closeWindow demoDelayedState "bar") "bar") 100).windows
      "bar" = some false := by
  decide

/-- C7: for a visible window whose name has a configured close delay
d > 0, a close request appends exactly one window-toggled(name, false)
event at scheduling time while the widget stays visible; the widget is
still visible after any elapse shorter than d and hidden once d has
elapsed; and a close request for a window that is not visible is a
no-op. -/
theorem closeWindow_delayed (s : AppState) (name : String) (d : Nat)
    (hv : alookup s.windows name = some true)
    (hd : alookup s.closeDelay name = some d)
    (hdpos : 0 < d)
    (hp : ∀ tm ∈ s.pending, tm.target ≠ name) :
    (closeWindow s name).events = s.events ++ [Event.windowToggled name false] ∧
    alookup (closeWindow s name).windows name = some true ∧
    (∀ t, t < d → alookup (elapse (closeWindow s name) t).windows name = some true) ∧
    alookup (elapse (closeWindow s name) d).windows name = some false ∧
    (∀ s2 : AppState, alookup s2.windows name = some false → closeWindow s2 name = s2) := by
  have hd0 : d ≠ 0 := Nat.pos_iff_ne_zero.mp hdpos
  have hclose : closeWindow s name =
      { s with
          pending := s.pending ++ [{ fireAt := s.now + d, target := name }],
          events := s.events ++ [Event.windowToggled name false] } := by
    unfold closeWindow
    rw [hv]
    simp [hd, delayTruthy, hd0]
  refine ⟨by rw [hclose], by rw [hclose]; exact hv, ?_, ?_, ?_⟩
  · intro t ht
    rw [hclose]
    have h' : ∀ tm ∈ s.pending ++ [({ fireAt := s.now + d, target := name } : Timer)],
        tm.fireAt ≤ s.now + t → tm.target ≠ name := by
      intro tm hm hle
      rcases List.mem_append.mp hm with hm1 | hm2
      · exact hp tm hm1
      · exfalso
        rw [List.mem_singleton] at hm2
        rw [hm2] at hle
        simp at hle
        omega
    exact (elapse_lookup_of_no_due _ t name h').trans hv
  · rw [hclose]
    exact elapse_due_tail_hides _ s.pending name (s.now + d) d rfl hp hv (Nat.le_refl _)
  · intro s2 h2
    unfold closeWindow
    rw [h2]
    simp

/-- A visible window bar whose close delay is configured as 5, with no
timer pending. -/
def demo7 : AppState :=
  { windows := [("bar", true)], closeDelay := [("bar", 5)],
    pending := [], events := [], log := [], quitCalled := false, now := 0 }

theorem closeWindow_delayed_witness :
    alookup (closeWindow demo7 "bar").windows "bar" = some true ∧
    alookup (elapse (closeWindow demo7 "bar") 5).windows "bar" = some false := by
  have h := closeWindow_delayed demo7 "bar" 5 (by decide) (by decide) (by decide)
    (by intro tm hm; simp [demo7] at hm)
  exact ⟨h.2.1, h.2.2.2.1⟩

/-- C10: for a visible window whose name maps to delay 0 or is absent
from the close delay table, a close request is exactly the immediate
widget hide: the window is hidden at once, no timer is registered, and
the only window-toggled(name, false) event appended is the one the hide
itself raises. -/
theorem closeWindow_zero_delay (s : AppState) (name : String)
    (hv : alookup s.windows name = some true)
    (hd : alookup s.closeDelay name = some 0 ∨ alookup s.closeDelay name = none) :
    closeWindow s name = hideWidget s name ∧
    alookup (closeWindow s name).windows name = some false ∧
    (closeWindow s name).pending = s.pending ∧
    (closeWindow s name).events = s.events ++ [Event.windowToggled name false] := by
  have hft : delayTruthy (alookup s.closeDelay name) = false := by
    rcases hd with h | h <;> simp [h, delayTruthy]
  have hcw := closeWindow_falsy_delay s name hv hft
  refine ⟨hcw, ?_, ?_, ?_⟩
  · rw [hcw]
    exact hideWidget_lookup_self s name hv
  · rw [hcw]
    exact hideWidget_pending s name
  · rw [hcw]
    unfold hideWidget
    rw [if_pos hv]

/-- A visible window bar with an empty close delay table. -/
def demo10 : AppState :=
  { windows := [("bar", true)], closeDelay := [], pending := [], events := [],
    log := [], quitCalled := false, now := 0 }

theorem closeWindow_zero_delay_witness :
    alookup (closeWindow demo10 "bar").windows "bar" = some false ∧
    (closeWindow demo10 "bar").pending = demo10.pending :=
  ⟨(closeWindow_zero_delay demo10 "bar" (by decide) (Or.inr (by decide))).2.1,
   (closeWindow_zero_delay demo10 "bar" (by decide) (Or.inr (by decide))).2.2.1⟩

/-- C3: adding a window under a fresh nonempty name enters it into the
registry; a second add under the same name logs the duplicate
diagnostic, leaves the registry entry unreplaced, and calls quit. -/
theorem addWindow_duplicate_fatal (s : AppState) (name : String) (v v2 : Bool)
    (hn : name ≠ "") (habs : alookup s.windows name = none) :
    alookup (addWindow s { name := name, visible := v }).windows name = some v ∧
    (addWindow (addWindow s { name := name, visible := v })
        { name := name, visible := v2 }).windows =
      (addWindow s { name := name, visible := v }).windows ∧
    ("There is already a window named" ++ name) ∈
      (addWindow (addWindow s { name := name, visible := v })
        { name := name, visible := v2 }).log ∧
    (addWindow (addWindow s { name := name, visible := v })
        { name := name, visible := v2 }).quitCalled = true := by
  have h1 : addWindow s { name := name, visible := v } =
      { s with windows := s.windows ++ [(name, v)] } := by
    unfold addWindow
    simp [hn, habs]
  have hl : alookup (s.windows ++ [(name, v)]) name = some v :=
    alookup_append_self s.windows name v habs
  have h2 : addWindow { s with windows := s.windows ++ [(name, v)] }
      { name := name, visible := v2 } =
      { s with windows := s.windows ++ [(name, v)],
               log := s.log ++ ["There is already a window named" ++ name],
               quitCalled := true } := by
    unfold addWindow
    simp [hn, hl]
  rw [h1, h2]
  refine ⟨hl, rfl, ?_, rfl⟩
  simp

theorem addWindow_duplicate_fatal_witness :
    alookup (addWindow emptyState { name := "bar", visible := false }).windows "bar" =
      some false ∧
    (addWindow (addWindow emptyState { name := "bar", visible := false })
      { name := "bar", visible := true }).quitCalled = true := by
  have h := addWindow_duplicate_fatal emptyState "bar" false true (by decide) (by decide)
  exact ⟨h.1, h.2.2.2⟩

/-- C8: the ToggleWindow RPC method invokes the registry toggle and then
returns the rendering of the visible flag looked up after the toggle;
for a hidden window it reports true, and for a visible window with no
truthy delay it reports false. -/
theorem ToggleWindow_reports_new_visibility (s : AppState) (name : String) (v : Bool)
    (hv : alookup s.windows name = some v) :
    (ToggleWindow s name).1 = (toggleWindow s name).1 ∧
    (ToggleWindow s name).2 =
      renderVisible (alookup (toggleWindow s name).1.windows name) ∧
    (v = false → (ToggleWindow s name).2 = "true") ∧
    (v = true → delayTruthy (alookup s.closeDelay name) = false →
      (ToggleWindow s name).2 = "false") := by
  refine ⟨rfl, rfl, ?_, ?_⟩
  · intro hvf
    subst hvf
    have ht : (toggleWindow s name).1 = openWindow s name := by
      unfold toggleWindow
      rw [hv]
      rfl
    show renderVisible (alookup (toggleWindow s name).1.windows name) = "true"
    rw [ht]
    unfold openWindow
    rw [showWidget_lookup_self s name hv]
    rfl
  · intro hvt hdf
    subst hvt
    have ht : (toggleWindow s name).1 = closeWindow s name := by
      unfold toggleWindow
      rw [hv]
      rfl
    show renderVisible (alookup (toggleWindow s name).1.windows name) = "false"
    rw [ht, closeWindow_falsy_delay s name hv hdf, hideWidget_lookup_self s name hv]
    rfl

/-- A hidden window bar with an empty close delay table. -/
def demo8 : AppState :=
  { windows := [("bar", false)], closeDelay := [], pending := [], events := [],
    log := [], quitCalled := false, now := 0 }

theorem ToggleWindow_reports_new_visibility_witness :
    (ToggleWindow demo8 "bar").2 = "true" :=
  (ToggleWindow_reports_new_visibility demo8 "bar" false (by decide)).2.2.1 rfl

/-- C5 counterexample: a load failure thrown past the missing-default
check that is not the entry-file-not-found ImportError logs, registers
no window and does not quit, but emits no config-parsed event at all,
refuting the claim that every such failure still emits config-parsed. -/
theorem load_threw_no_configParsed :
    (load emptyState (LoadOutcome.threw false)).events = [] ∧
    (load emptyState (LoadOutcome.threw false)).quitCalled = false ∧
    (load emptyState (LoadOutcome.threw false)).windows = [] := by
  decide

/-- C5 (amended): every load failure other than entry-file-not-found
logs, keeps the registry unchanged and does not quit; config-parsed is
emitted for the missing-default-export failure but not for a thrown
load error; the entry-file-not-found failure logs and quits. -/
theorem load_failure_handling (s : AppState) :
    ((load s LoadOutcome.noDefault).windows = s.windows ∧
      (load s LoadOutcome.noDefault).quitCalled = s.quitCalled ∧
      (load s LoadOutcome.noDefault).events = s.events ++ [Event.configParsed] ∧
      "Missing default export" ∈ (load s LoadOutcome.noDefault).log) ∧
    ((load s (LoadOutcome.threw false)).windows = s.windows ∧
      (load s (LoadOutcome.threw false)).quitCalled = s.quitCalled ∧
      (load s (LoadOutcome.threw false)).events = s.events ∧
      "logError" ∈ (load s (LoadOutcome.threw false)).log) ∧
    ((load s (LoadOutcome.threw true)).quitCalled = true ∧
      "config file not found" ∈ (load s (LoadOutcome.threw true)).log) := by
  simp [load]

/-- A config carrying only the legacy maxStreamVolume field. -/
def maxStreamVolumeOnly : Config :=
  { windows := [], style := none, icons := none, closeWindowDelay := none,
    notificationPopupTimeout := none, notificationForceTimeout := none,
    cacheNotificationActions := none, cacheCoverArt := none,
    maxStreamVolume := some 100 }

/-- C9 (code divergence): a config carrying only the legacy field
maxStreamVolume gets exactly one deprecation warning, and that warning
names cacheCoverArt rather than maxStreamVolume while pointing at the
Audio.maxStreamVolume replacement; the other four legacy fields are
each named correctly by their own warning. -/
theorem deprecated_maxStreamVolume_misnamed :
    deprecatedWarnings maxStreamVolumeOnly =
      [warningMsg "cacheCoverArt" "Audio.maxStreamVolume"] ∧
    deprecatedWarnings maxStreamVolumeOnly ≠
      [warningMsg "maxStreamVolume" "Audio.maxStreamVolume"] ∧
    deprecatedWarnings { maxStreamVolumeOnly with
        maxStreamVolume := none, notificationPopupTimeout := some 1 } =
      [warningMsg "notificationPopupTimeout" "Notifications.popupTimeout"] ∧
    deprecatedWarnings { maxStreamVolumeOnly with
        maxStreamVolume := none, notificationForceTimeout := some true } =
      [warningMsg "notificationForceTimeout" "Notifications.forceTimeout"] ∧
    deprecatedWarnings { maxStreamVolumeOnly with
        maxStreamVolume := none, cacheNotificationActions := some true } =
      [warningMsg "cacheNotificationActions" "Notifications.cacheActions"] ∧
    deprecatedWarnings { maxStreamVolumeOnly with
        maxStreamVolume := none, cacheCoverArt := some true } =
      [warningMsg "cacheCoverArt" "Mpris.cacheCoverArt"] := by
  decide

/-- C2 (code divergence): with both caller bus name and object path
present, a resolution and a rejection are each replied as a single
Return bus call to the caller; without a caller identity a rejection is
logged locally, but a resolution is not written to local output: the
local print constant shadowing the global one issues a dbus Print call
whose destination is the absent bus name. -/
theorem runJs_success_routing :
    (RunJs "1+1" (some "b") (some "p") (Outcome.resolved "2")).2 =
      [Delivery.dbusCall (some "b") (some "p") (some "b") "Return" "2"] ∧
    (RunJs "1+1" (some "b") (some "p") (Outcome.rejected "Error: x")).2 =
      [Delivery.dbusCall (some "b") (some "p") (some "b") "Return" "Error: x"] ∧
    (RunJs "1+1" none none (Outcome.rejected "Error: x")).2 =
      [Delivery.logError "Error: x"] ∧
    (RunJs "1+1" none none (Outcome.resolved "2")).2 =
      [Delivery.dbusCall none none none "Print" "2"] := by
  decide

/-- C4: script text with no statement separator compiles to a body that
returns it as a single expression; the engine resolves 1+1 to the
string 2 and RunJs with a caller identity replies with a successful
Return bus call carrying 2; a compile error is replied to the
identified caller or logged locally, and in either case that single
delivery is all that happens, so execution does not proceed. -/
theorem runJs_single_expression (js e b p : String)
    (hsem : hasSemicolon js = false) (hb : b ≠ "") (hp : p ≠ "") :
    (RunJs js (some b) (some p) (Outcome.compileError e)).1 = "return " ++ js ∧
    engineOutcome "1+1" = some (Outcome.resolved "2") ∧
    (RunJs "1+1" (some b) (some p) (Outcome.resolved "2")).2 =
      [Delivery.dbusCall (some b) (some p) (some b) "Return" "2"] ∧
    (RunJs js (some b) (some p) (Outcome.compileError e)).2 =
      [Delivery.dbusCall (some b) (some p) (some b) "Return" e] ∧
    (RunJs js none none (Outcome.compileError e)).2 = [Delivery.logError e] := by
  refine ⟨?_, by decide, ?_, ?_, ?_⟩ <;>
    simp [RunJs, runJsBody, dbusSend, strTruthy, hsem, hb, hp]

theorem runJs_single_expression_witness :
    (RunJs "1+1" (some "bus") (some "path") (Outcome.compileError "SyntaxError")).1 =
      "return 1+1" ∧
    (RunJs "1+1" (some "bus") (some "path") (Outcome.resolved "2")).2 =
      [Delivery.dbusCall (some "bus") (some "path") (some "bus") "Return" "2"] := by
  have h := runJs_single_expression "1+1" "SyntaxError" "bus" "path" (by decide)
    (by decide) (by decide)
  exact ⟨h.1, h.2.2.1⟩

end Ags
